import Mathlib

/-!  Verification of the image-deduplication pipeline (main.py, database.py,
file_monitor.py, image_processor.py) against its natural-language
specification.  The Python modules are shallowly embedded: pure helpers become
Lean functions, the record store becomes an explicit list threaded through the
operations, filesystem facts become an explicit `Fs` value, exceptions become
`Except` values, and the statistics counters become explicit update events.
All definitions are translated from the source files; theorems settle the
spec's claims about them.  -/

namespace ImgDedup

/-! ## Bytes and content hashing (database.py, `calculate_file_hash`)

`calculate_file_hash` feeds file bytes into an incremental SHA-256 context:
whole-file `f.read()` for files under 1 MiB, successive 64 KiB `f.read(65536)`
chunks otherwise, then takes `hexdigest()`.  The SHA-256 compression itself
lives in `hashlib` (external); it is abstracted as a function `H` from the
accumulated byte stream to the hex digest.  An `update` call appends its bytes
to the stream the digest is taken over (hashlib's documented semantics). -/

/-- Raw file bytes, one natural number per byte. -/
abbrev Bytes := List Nat

/-- One `update` call on an incremental hash context: the chunk's bytes are
appended to the accumulated stream. -/
def hashUpdate (acc : Bytes) (chunk : Bytes) : Bytes := acc ++ chunk

/-- The read buffer size of `calculate_file_hash` (database.py line 119,
`chunk_size: int = 65536`; no caller overrides it). -/
def CHUNK_SIZE : Nat := 65536

/-- The successive non-empty results of the `while chunk := f.read(chunk_size)`
loop (database.py lines 146-148). -/
def readChunks (content : Bytes) : List Bytes :=
  if h : content = [] then []
  else content.take CHUNK_SIZE :: readChunks (content.drop CHUNK_SIZE)
termination_by content.length
decreasing_by
  simp only [List.length_drop]
  exact Nat.sub_lt (List.length_pos.mpr h) (by norm_num [CHUNK_SIZE])

/-- Byte stream accumulated by the whole-file path (database.py lines 141-143):
one `f.read()`, one `update`. -/
def wholeReadBytes (content : Bytes) : Bytes := hashUpdate [] content

/-- Byte stream accumulated by the chunked path (database.py lines 145-148):
one `update` per 64 KiB chunk. -/
def chunkedReadBytes (content : Bytes) : Bytes := (readChunks content).foldl hashUpdate []

/-- Digest produced by the whole-file read path, for digest function `H`. -/
def wholeReadDigest (H : Bytes → String) (content : Bytes) : String := H (wholeReadBytes content)

/-- Digest produced by the chunked read path, for digest function `H`. -/
def chunkedReadDigest (H : Bytes → String) (content : Bytes) : String := H (chunkedReadBytes content)

/-- `DatabaseManager.calculate_file_hash` (database.py lines 119-153): files
under 1 MiB are read in one pass, larger files in 64 KiB chunks; either way
the digest of the accumulated stream is returned. -/
def calculate_file_hash (H : Bytes → String) (content : Bytes) : String :=
  if content.length < 1024 * 1024 then wholeReadDigest H content
  else chunkedReadDigest H content

/-! ## The record store (database.py, `FileRecord`, `check_duplicate`,
`add_file_record`)

The `file_records` table enforces a uniqueness constraint on `hash`
(`unique=True` plus `UniqueConstraint('hash', name='uq_file_hash')`).  The
store is modelled as the list of `(hash, original_name)` rows; the remaining
columns play no role in the claims. -/

/-- The persisted rows: `(hash, original_name)` pairs. -/
abbrev Store := List (String × String)

/-- The database errors distinguished by the source: `IntegrityError` raised
by the uniqueness constraint on `hash`. -/
inductive DbErr where
  | integrityError
deriving DecidableEq

/-- `DatabaseManager.check_duplicate` (database.py lines 155-179): the
`original_name` of the first record with this hash, if any. -/
def check_duplicate (store : Store) (fileHash : String) : Option String :=
  (store.find? (fun row => row.1 == fileHash)).map (fun row => row.2)

/-- `DatabaseManager.add_file_record` (database.py lines 181-213): inserting a
row whose hash is already present violates the uniqueness constraint; the
`except IntegrityError` handler logs the duplicate hash and re-raises, so the
caller sees the error.  A successful insert returns the new row id. -/
def add_file_record (store : Store) (fileHash originalName : String) :
    Except DbErr (Nat × Store) :=
  if store.any (fun row => row.1 == fileHash) then .error .integrityError
  else .ok (store.length + 1, store ++ [(fileHash, originalName)])

/-! ## File model

A `PyFile` gathers what the pipeline observes about one filesystem entry:
its path pieces (pathlib's `name` / `stem` / `suffix`), whether it still
exists and is a regular file, whether `stat()` / reads / hashing succeed on
it, its size, the first 32 bytes, the SHA-256 digest of its content, the
outcome of the external PIL probes, and whether `unlink()` / `shutil.move`
would succeed on it. -/

structure PyFile where
  /-- Path string, absolute and normalized in the `Fs` model. -/
  path : String
  /-- `file_path.name`, the final component. -/
  name : String
  /-- `file_path.stem`. -/
  stem : String
  /-- `file_path.suffix`, with its leading dot and original case. -/
  ext : String
  /-- SHA-256 hex digest of the content (`calculate_file_hash`). -/
  hash : String
  /-- `file_path.exists()`. -/
  present : Bool := true
  /-- `file_path.is_file()`. -/
  isFile : Bool := true
  /-- `file_path.stat()` succeeds (no `OSError`). -/
  statOk : Bool := true
  /-- `open(file_path, 'rb')` and reading succeed. -/
  readOk : Bool := true
  /-- The external PIL quick probe (`_pil_quick_validation`): the image opens
  with positive width and height. -/
  pilOk : Bool := false
  /-- The external PIL full probe (`Image.open` + `img.verify()`). -/
  verifyOk : Bool := false
  /-- `calculate_file_hash(file_path)` completes without raising. -/
  hashOk : Bool := true
  /-- `file_path.unlink()` succeeds. -/
  unlinkOk : Bool := true
  /-- `shutil.move(file_path, ...)` succeeds. -/
  moveOk : Bool := true
  /-- `stat().st_size`. -/
  size : Nat := 0
  /-- First 32 bytes of the content (`f.read(32)`). -/
  header : Bytes := []
deriving DecidableEq

/-! ## String-method models

The Python `str` methods the source leans on are modelled character-wise
(structural recursion, so concrete runs reduce): `str.lower` / `str.upper`
over ASCII letters (every extension involved is ASCII), `str.startswith`,
`str.endswith`, and splitting/joining on `/`. -/

/-- ASCII `str.lower` on one character. -/
def asciiLower (c : Char) : Char :=
  if 65 ≤ c.toNat && c.toNat ≤ 90 then Char.ofNat (c.toNat + 32) else c

/-- ASCII `str.upper` on one character. -/
def asciiUpper (c : Char) : Char :=
  if 97 ≤ c.toNat && c.toNat ≤ 122 then Char.ofNat (c.toNat - 32) else c

/-- `s.lower()`. -/
def strLower (s : String) : String := String.mk (s.toList.map asciiLower)

/-- `s.upper()`. -/
def strUpper (s : String) : String := String.mk (s.toList.map asciiUpper)

/-- `s.startswith(pre)`. -/
def strStartsWith (s pre : String) : Bool := pre.toList.isPrefixOf s.toList

/-- `s.endswith(suffix)`. -/
def strEndsWith (s suffix : String) : Bool := suffix.toList.isSuffixOf s.toList

/-- Split a character list on `/`. -/
def splitSlash : List Char → List (List Char)
  | [] => [[]]
  | c :: rest =>
    if c = '/' then [] :: splitSlash rest
    else
      match splitSlash rest with
      | [] => [[c]]
      | h :: t => (c :: h) :: t

/-- Join path components with `/`. -/
def joinParts : List String → String
  | [] => ""
  | [p] => p
  | p :: rest => p ++ "/" ++ joinParts rest

/-! ## Image processor (image_processor.py)

`SUPPORTED_EXTENSIONS` is the module-level extension set.
`ImageProcessor.is_supported_format(self, file_extension: str)` lowercases its
argument and tests membership.  main.py calls it in two ways: with
`file_path.suffix` (a `str`, inside `validate_image`) and with the whole
`Path` object (`_validate_file_format` line 204 and `batch_process_folder`
line 442).  A `Path` has no `.lower()` method, so the second call raises
`AttributeError`; the dynamic argument and the raising call are embedded
explicitly. -/

/-- `SUPPORTED_EXTENSIONS` (image_processor.py lines 22-24). -/
def SUPPORTED_EXTENSIONS : List String :=
  [".jpg", ".jpeg", ".png", ".gif", ".bmp", ".tiff", ".tif", ".webp", ".ico"]

/-- Exceptions the embedding distinguishes. -/
inductive PyErr where
  | attributeError
deriving DecidableEq

/-- The value actually passed for the `file_extension: str` parameter:
either a string (as annotated) or a whole `Path` object. -/
inductive StrArg where
  | str (s : String)
  | path (f : PyFile)

/-- The dynamic `file_extension.lower()` call: defined on strings, an
`AttributeError` on a `Path` object. -/
def strLowerCall : StrArg → Except PyErr String
  | .str s => .ok (strLower s)
  | .path _ => .error .attributeError

/-- `ImageProcessor.is_supported_format` (image_processor.py lines 73-84) as
called with a dynamic argument: `file_extension.lower() in
SUPPORTED_EXTENSIONS`. -/
def isSupportedFormatCall (arg : StrArg) : Except PyErr Bool :=
  match strLowerCall arg with
  | .ok low => .ok (SUPPORTED_EXTENSIONS.contains low)
  | .error e => .error e

/-- `is_supported_format` on its annotated `str` domain. -/
def is_supported_format (fileExtension : String) : Bool :=
  SUPPORTED_EXTENSIONS.contains (strLower fileExtension)

/-- JPEG magic: `header.startswith(b'\xff\xd8\xff')`. -/
def isJpegHeader (h : Bytes) : Bool := [0xFF, 0xD8, 0xFF].isPrefixOf h

/-- PNG magic: `header.startswith(b'\x89PNG\r\n\x1a\n')`. -/
def isPngHeader (h : Bytes) : Bool :=
  [0x89, 0x50, 0x4E, 0x47, 0x0D, 0x0A, 0x1A, 0x0A].isPrefixOf h

/-- GIF magic: `header.startswith(b'GIF8')`. -/
def isGifHeader (h : Bytes) : Bool := [0x47, 0x49, 0x46, 0x38].isPrefixOf h

/-- BMP magic: `header.startswith(b'BM')`. -/
def isBmpHeader (h : Bytes) : Bool := [0x42, 0x4D].isPrefixOf h

/-- `sub in l` on byte strings: some contiguous slice of `l` equals `sub`. -/
def bytesContain (sub l : Bytes) : Bool :=
  (List.range (l.length + 1)).any (fun i => sub.isPrefixOf (l.drop i))

/-- WebP test: `header.startswith(b'RIFF') and b'WEBP' in header`. -/
def isWebpHeader (h : Bytes) : Bool :=
  [0x52, 0x49, 0x46, 0x46].isPrefixOf h && bytesContain [0x57, 0x45, 0x42, 0x50] h

/-- TIFF magic: `header.startswith((b'II*\x00', b'MM\x00*'))`. -/
def isTiffHeader (h : Bytes) : Bool :=
  [0x49, 0x49, 0x2A, 0x00].isPrefixOf h || [0x4D, 0x4D, 0x00, 0x2A].isPrefixOf h

/-- Any of the recognised magic numbers. -/
def headerMagic (h : Bytes) : Bool :=
  isJpegHeader h || isPngHeader h || isGifHeader h || isBmpHeader h ||
    isWebpHeader h || isTiffHeader h

/-- `ImageProcessor._quick_image_validation` (image_processor.py lines
283-316): read the first 32 bytes (failure is caught and gives `False`),
accept any recognised magic, otherwise fall back to the PIL probe
(`_pil_quick_validation`, itself exception-safe). -/
def quickImageValidation (f : PyFile) : Bool :=
  if !f.readOk then false
  else if isJpegHeader f.header then true
  else if isPngHeader f.header then true
  else if isGifHeader f.header then true
  else if isBmpHeader f.header then true
  else if isWebpHeader f.header then true
  else if isTiffHeader f.header then true
  else f.pilOk

/-- `ImageProcessor.validate_image` (image_processor.py lines 243-281): the
whole body sits in a `try` whose `except` returns `False`, so every failure
mode yields `False`. In order: existence and regular-file check, zero-size
check, extension check via `is_supported_format(file_path.suffix)` (a string,
so no `AttributeError` here), then the quick header validation (or, with
`quick_check=False`, a full PIL `verify()`). All callers use the default
`quick_check=True`. -/
def validate_image (f : PyFile) (quick : Bool := true) : Bool :=
  if !f.present || !f.isFile then false
  else if !f.statOk then false
  else if f.size == 0 then false
  else if !(is_supported_format f.ext) then false
  else if quick then quickImageValidation f
  else f.verifyOk

/-! ## Paths and the filesystem model

`pathlib.PurePosixPath` parsing collapses repeated slashes and single-dot
segments but neither resolves `..` nor absolutizes; `str(Path(p))` returns the
re-joined parts (`'.'` for an empty relative path).  The filesystem is a value
`Fs`: the process working directory, the set of existing directories and the
existing files, all keyed by normalized absolute path. -/

/-- The path's components: split on `/`, dropping empty and `.` segments. -/
def pathParts (s : String) : List String :=
  ((splitSlash s.toList).map String.mk).filter (fun part => !(part == "") && !(part == "."))

/-- Whether the spelling is absolute. -/
def isAbsPath (s : String) : Bool := strStartsWith s "/"

/-- `str(Path(s))`: the parsed spelling, not absolutized. -/
def pathStr (s : String) : String :=
  if isAbsPath s then "/" ++ joinParts (pathParts s)
  else if (pathParts s).isEmpty then "." else joinParts (pathParts s)

/-- The absolute path a spelling denotes, resolving relative spellings against
the working directory `cwd` (itself absolute). -/
def absNorm (cwd s : String) : String :=
  if isAbsPath s then "/" ++ joinParts (pathParts s)
  else "/" ++ joinParts (pathParts cwd ++ pathParts s)

/-- The filesystem as observed by the pipeline. -/
structure Fs where
  /-- Working directory (absolute). -/
  cwd : String
  /-- Existing directories, by normalized absolute path. -/
  dirs : List String
  /-- Existing files; each `PyFile.path` is a normalized absolute path. -/
  files : List PyFile
deriving DecidableEq

/-- `Path(p).is_dir()` over the model. -/
def fsIsDir (fs : Fs) (p : String) : Bool := fs.dirs.contains (absNorm fs.cwd p)

/-- A present file sits at this path. -/
def fsFileAt (fs : Fs) (p : String) : Bool :=
  fs.files.any (fun f => f.path == absNorm fs.cwd p && f.present)

/-- `Path(p).exists()` over the model. -/
def fsPathExists (fs : Fs) (p : String) : Bool := fsIsDir fs p || fsFileAt fs p

/-! ## Directory scanner (file_monitor.py, `FileScanner`)

`scan_paths` is a Python `set` of `(str(Path(path)), recursive)` tuples;
adding an element already present leaves the set unchanged.  The set is
modelled as a duplicate-free list with append-if-absent insertion (only
membership is observable). -/

/-- Python `set.add`: append the element unless it is already a member. -/
def setInsert (x : String × Bool) (l : List (String × Bool)) : List (String × Bool) :=
  if x ∈ l then l else l ++ [x]

/-- The scanner's mutable state relevant to the claims: its registered
targets. -/
structure ScannerState where
  /-- `self.scan_paths`, the registered `(path string, recursive)` pairs. -/
  scanPaths : List (String × Bool)
deriving DecidableEq

/-- `FileScanner.add_scan_path` (file_monitor.py lines 49-71): reject a path
that does not exist or is not a directory (returning `False`, raising
nothing); otherwise add `(str(scan_path), recursive)` to the set and return
`True`. -/
def add_scan_path (fs : Fs) (st : ScannerState) (path : String) (recursive : Bool) :
    Bool × ScannerState :=
  if !(fsPathExists fs path) then (false, st)
  else if !(fsIsDir fs path) then (false, st)
  else (true, ⟨setInsert (pathStr path, recursive) st.scanPaths⟩)

/-- A file lies strictly below the directory (any depth): the glob pattern
`**/*` + extension reaches it. -/
def underDir (dirAbs : String) (f : PyFile) : Bool :=
  (pathParts dirAbs).isPrefixOf (pathParts f.path) &&
    decide ((pathParts dirAbs).length < (pathParts f.path).length)

/-- A file is a direct child of the directory (`iterdir`). -/
def directChildOf (dirAbs : String) (f : PyFile) : Bool :=
  (pathParts dirAbs).isPrefixOf (pathParts f.path) &&
    ((pathParts f.path).length == (pathParts dirAbs).length + 1)

/-- `FileScanner._scan_directory` (file_monitor.py lines 87-114): recursive
targets are globbed with `**/*` + each (lowercase) supported extension;
non-recursive targets are `iterdir`ed, keeping regular files whose lowercased
suffix is supported.  Errors during the walk are caught inside and yield the
files collected so far (here: the model walk is total). -/
def scanDirectory (fs : Fs) (p : String) (recursive : Bool) : List String :=
  let d := absNorm fs.cwd p
  if recursive then
    SUPPORTED_EXTENSIONS.flatMap (fun ext =>
      ((fs.files.filter (fun f => f.present && underDir d f && strEndsWith f.name ext)).map
        (fun f => f.path)))
  else
    (fs.files.filter (fun f =>
      f.present && directChildOf d f && f.isFile && is_supported_format f.ext)).map
      (fun f => f.path)

/-- One target's contribution to a scan pass (file_monitor.py lines 123-139):
a target whose directory no longer exists is logged and skipped — it
contributes nothing and stays registered. -/
def targetFiles (fs : Fs) (target : String × Bool) : List String :=
  if !(fsPathExists fs target.1) then [] else scanDirectory fs target.1 target.2

/-- One pass of `FileScanner._scan_worker`'s loop (file_monitor.py lines
120-142): every registered target is visited; the found paths are enqueued;
`scan_paths` itself is never written. -/
def scanPass (fs : Fs) (st : ScannerState) : ScannerState × List String :=
  (st, st.scanPaths.flatMap (targetFiles fs))

/-! ## Continuous-mode pipeline (main.py, `ImageDuplicateDetector`)

The statistics counters `processed` / `duplicates` / `moved` / `errors` are
updated inside `with self.processing_lock:` blocks.  Each update is embedded
as an event recording the counter touched and whether the shared lock was held
at that point (taken from the `with` structure of the source); a run of the
callback yields the list of events it performs, in order. -/

/-- The Statistics counters of main.py's `stats` dictionary. -/
inductive StatField where
  | processed
  | duplicates
  | moved
  | errors
deriving DecidableEq, BEq

/-- One counter increment: which counter, and whether `processing_lock` was
held when it happened. -/
structure Ev where
  /-- The counter incremented. -/
  fld : StatField
  /-- The increment sits inside a `with self.processing_lock:` block. -/
  locked : Bool
deriving DecidableEq

/-- How often a run increments one counter. -/
def evCount (es : List Ev) (fld : StatField) : Nat :=
  (es.filter (fun e => e.fld == fld)).length

/-- `_handle_duplicate_file` (main.py lines 214-239): delete the duplicate;
on success increment `duplicates` under the lock and return `True`; a failed
delete is caught and returns `False` with no counter update. -/
def handleDuplicateFileEv (unlinkOk : Bool) : Bool × List Ev :=
  if unlinkOk then (true, [⟨.duplicates, true⟩]) else (false, [])

/-- The relocation half of `_move_file_to_output` (main.py lines 291-308):
a successful move increments `moved` under the lock and returns `True`; a
failed move is caught and returns `False` with no counter update. -/
def moveFileEv (moveOk : Bool) : Bool × List Ev :=
  if moveOk then (true, [⟨.moved, true⟩]) else (false, [])

/-- `_save_file_to_database` (main.py lines 241-268): call `add_file_record`;
any exception — the re-raised `IntegrityError` included — is caught and turned
into `False`. -/
def saveFileToDatabase (store : Store) (f : PyFile) : Bool × Store :=
  match add_file_record store f.hash f.name with
  | .ok r => (true, r.2)
  | .error _ => (false, store)

/-- `_validate_file_format` (main.py lines 194-212): it calls
`is_supported_format(file_path)` with the whole `Path` object, so the call
raises before either check can run; on a supported format it would defer to
`validate_image`. -/
def validateFileFormat (f : PyFile) : Except PyErr Bool :=
  match isSupportedFormatCall (.path f) with
  | .error e => .error e
  | .ok false => .ok false
  | .ok true => .ok (validate_image f)

/-- `_process_image_file` (main.py lines 310-366): validation (a raising call
is caught by the enclosing `except`, giving `False`), stat, hash, dedup check
(a hit goes to the duplicate handler), then persist and relocate.  Returns the
success flag, the counter events performed, and the store after the run. -/
def processImageFile (store : Store) (f : PyFile) : Bool × List Ev × Store :=
  match validateFileFormat f with
  | .error _ => (false, [], store)
  | .ok false => (true, [], store)
  | .ok true =>
    if !f.statOk then (false, [], store)
    else if !f.hashOk then (false, [], store)
    else
      match check_duplicate store f.hash with
      | some _ =>
        let r := handleDuplicateFileEv f.unlinkOk
        (r.1, r.2, store)
      | none =>
        match saveFileToDatabase store f with
        | (true, store2) =>
          let m := moveFileEv f.moveOk
          (m.1, m.2, store2)
        | (false, store2) => (false, [], store2)

/-- The counter update closing `_process_file` (main.py lines 170-175): under
the lock, `processed` is incremented when `_process_image_file` returned
`True` and `errors` otherwise. -/
def processFileTailEv (success : Bool) : List Ev :=
  [⟨if success then .processed else .errors, true⟩]

/-- `_process_file`, the continuous-mode processing callback (main.py lines
144-192): a path that no longer exists or is not a regular file returns with
no counter update; otherwise `_process_image_file` runs and exactly one of
`processed` / `errors` is incremented under the lock from its success flag. -/
def processFile (store : Store) (f : PyFile) : List Ev × Store :=
  if !f.present then ([], store)
  else if !f.isFile then ([], store)
  else
    let r := processImageFile store f
    (r.2.1 ++ processFileTailEv r.1, r.2.2)

/-! ## Batch mode (main.py, `batch_process_folder`) -/

/-- The counts `batch_process_folder` returns. -/
structure BatchStats where
  /-- Files stored in the record store. -/
  processed : Nat := 0
  /-- Files whose hash was already recorded. -/
  duplicates : Nat := 0
  /-- Files whose processing failed. -/
  errors : Nat := 0
  /-- Files skipped as unsupported, empty or invalid. -/
  skipped : Nat := 0
deriving DecidableEq

/-- The initial all-zero counts (main.py lines 396-401). -/
def zeroBatchStats : BatchStats := {}

/-- The insert block of the batch loop (main.py lines 479-495): `try` the
insert, count `processed` on success; any exception — the `IntegrityError` a
lost uniqueness race re-raises included — is caught and counted as an error. -/
def batchInsertBlock (store : Store) (stats : BatchStats) (f : PyFile) :
    BatchStats × Store :=
  match add_file_record store f.hash f.name with
  | .ok r => ({ stats with processed := stats.processed + 1 }, r.2)
  | .error _ => ({ stats with errors := stats.errors + 1 }, store)

/-- One iteration of the batch loop (main.py lines 433-500): the
`is_supported_format(file_path)` call raises `AttributeError` (a `Path` has
no `.lower()`), which the per-file `except` counts as an error; the remaining
steps follow the source: stat (failure counts an error), zero-size and
invalid-image skips, hashing (a raise counts an error), dedup check (a hit
counts a duplicate), then the insert block. -/
def batchFileStep (acc : BatchStats × Store) (f : PyFile) : BatchStats × Store :=
  let stats := acc.1
  let store := acc.2
  match isSupportedFormatCall (.path f) with
  | .error _ => ({ stats with errors := stats.errors + 1 }, store)
  | .ok false => ({ stats with skipped := stats.skipped + 1 }, store)
  | .ok true =>
    if !f.statOk then ({ stats with errors := stats.errors + 1 }, store)
    else if f.size == 0 then ({ stats with skipped := stats.skipped + 1 }, store)
    else if !(validate_image f) then ({ stats with skipped := stats.skipped + 1 }, store)
    else if !f.hashOk then ({ stats with errors := stats.errors + 1 }, store)
    else
      match check_duplicate store f.hash with
      | some _ => ({ stats with duplicates := stats.duplicates + 1 }, store)
      | none => batchInsertBlock store stats f

/-- One glob pattern of the batch discovery (main.py lines 412-418):
`folder.glob(('**/*' if recursive else '*') + ext)` — a file below the folder
(strictly below for `**/*`, a direct child otherwise) whose name ends with
the extension. -/
def globPatternMatch (dirAbs : String) (recursive : Bool) (ext : String) (f : PyFile) : Bool :=
  (if recursive then underDir dirAbs f else directChildOf dirAbs f) && strEndsWith f.name ext

/-- `get_image_files` of the batch loop (main.py lines 412-421): for every
supported extension, the glob matches for the extension as written and for
its uppercased spelling. -/
def getImageFiles (fs : Fs) (dirAbs : String) (recursive : Bool) : List PyFile :=
  SUPPORTED_EXTENSIONS.flatMap (fun ext =>
    (fs.files.filter (fun f => f.present && globPatternMatch dirAbs recursive ext f)) ++
      (fs.files.filter (fun f => f.present && globPatternMatch dirAbs recursive (strUpper ext) f)))

/-- `batch_process_folder` (main.py lines 368-525): a folder that does not
exist or is not a directory returns the all-zero counts at once; otherwise the
discovered files are processed in order.  Batch mode never writes the
filesystem (no delete, no move), so the `Fs` value is returned unchanged. -/
def batch_process_folder (fs : Fs) (store : Store) (folderPath : String) (recursive : Bool) :
    BatchStats × Store × Fs :=
  if !(fsPathExists fs folderPath) || !(fsIsDir fs folderPath) then (zeroBatchStats, store, fs)
  else
    let files := getImageFiles fs (absNorm fs.cwd folderPath) recursive
    let r := files.foldl batchFileStep (zeroBatchStats, store)
    (r.1, r.2, fs)

/-! ## Relocation naming (main.py, `_move_file_to_output` lines 280-298)

The destination starts as the source's `name` inside the output directory;
while a file with the candidate name exists, the candidate becomes
`stem_counter + suffix` with the counter incremented.  Names are relative to
the output directory; `occupied` is the `output_path.exists()` test.  The
Python loop is unbounded; the embedding runs it on fuel and returns `none`
when the fuel ends before a free name is found. -/

/-- `f"(stem)_(counter)(suffix)"` as built at main.py line 288. -/
def numberedName (stem : String) (k : Nat) (suffix : String) : String :=
  stem ++ "_" ++ toString k ++ suffix

/-- The `while output_path.exists()` loop (main.py lines 284-289). -/
def findUniqueName (occupied : String → Bool) (stem suffix cand : String)
    (counter fuel : Nat) : Option String :=
  match fuel with
  | 0 => none
  | Nat.succ m =>
    if occupied cand then
      findUniqueName occupied stem suffix (numberedName stem counter suffix) (counter + 1) m
    else some cand

/-- The destination name `_move_file_to_output` settles on for `f`. -/
def moveDestName (occupied : String → Bool) (f : PyFile) (fuel : Nat) : Option String :=
  findUniqueName occupied f.stem f.ext f.name 1 fuel

/-! ## Concrete instances used by witnesses and counterexamples -/

/-- A valid JPEG image. -/
def imgA : PyFile :=
  { path := "/in/a.jpg", name := "a.jpg", stem := "a", ext := ".jpg", hash := "h1",
    size := 100, header := [0xFF, 0xD8, 0xFF, 0xE0] }

/-- A valid PNG image, distinct content. -/
def imgB : PyFile :=
  { path := "/in/b.png", name := "b.png", stem := "b", ext := ".png", hash := "h2",
    size := 90, header := [0x89, 0x50, 0x4E, 0x47, 0x0D, 0x0A, 0x1A, 0x0A] }

/-- A valid GIF image, distinct content. -/
def imgC : PyFile :=
  { path := "/in/c.gif", name := "c.gif", stem := "c", ext := ".gif", hash := "h3",
    size := 80, header := [0x47, 0x49, 0x46, 0x38, 0x39, 0x61] }

/-- A byte-identical copy of `imgA` under another name: same size, same
header, same SHA-256 digest. -/
def imgD : PyFile :=
  { path := "/in/d.jpg", name := "d.jpg", stem := "d", ext := ".jpg", hash := "h1",
    size := 100, header := [0xFF, 0xD8, 0xFF, 0xE0] }

/-- Scenario A's folder: three distinct valid images and one byte-identical
copy of the first. -/
def fsIn : Fs := { cwd := "/", dirs := ["/in"], files := [imgA, imgB, imgC, imgD] }

/-- A filesystem with one directory `/root/d`, working directory `/root`: the
spellings `d` and `/root/d` denote the same directory. -/
def fs4 : Fs := { cwd := "/root", dirs := ["/root/d"], files := [] }

/-- An empty filesystem. -/
def fs0 : Fs := { cwd := "/", dirs := [], files := [] }

/-- A scanner with no registered target. -/
def noTargets : ScannerState := ⟨[]⟩

/-- A store already holding the hash `h1` (inserted by a concurrent worker). -/
def storeH : Store := [("h1", "first.jpg")]

/-- Occupancy of the output directory: `a.png` and `a_1.png` are taken. -/
def occA : String → Bool := fun s => ["a.png", "a_1.png"].contains s

/-- A file named `a.png`, about to be relocated. -/
def fileA : PyFile := { path := "/in/a.png", name := "a.png", stem := "a", ext := ".png", hash := "ha" }

/-- A queued path whose file vanished before the callback ran. -/
def goneFile : PyFile :=
  { path := "/in/g.jpg", name := "g.jpg", stem := "g", ext := ".jpg", hash := "hg",
    present := false }

/-! ## Helper lemmas -/

/-- Folding `update` calls accumulates the concatenation of the chunks. -/
theorem foldl_hashUpdate_eq (l : List Bytes) :
    ∀ acc : Bytes, l.foldl hashUpdate acc = acc ++ l.flatten := by
  induction l with
  | nil => intro acc; simp
  | cons c cs ih => intro acc; simp [List.foldl, hashUpdate, ih]

/-- The chunks of `readChunks` concatenate back to the content (bounded
induction on the length). -/
theorem readChunks_flatten_le :
    ∀ (n : Nat) (content : Bytes), content.length ≤ n → (readChunks content).flatten = content := by
  intro n
  induction n with
  | zero =>
    intro content h
    have hc : content = [] := List.length_eq_zero.mp (Nat.le_zero.mp h)
    subst hc
    rw [readChunks]
    simp
  | succ n ih =>
    intro content h
    rw [readChunks]
    by_cases hc : content = []
    · simp [hc]
    · rw [dif_neg hc]
      have hcs : CHUNK_SIZE = 65536 := rfl
      have hpos : 0 < content.length := List.length_pos.mpr hc
      have hle : (content.drop CHUNK_SIZE).length ≤ n := by
        simp only [List.length_drop]
        omega
      simp only [List.flatten_cons, ih (content.drop CHUNK_SIZE) hle]
      exact List.take_append_drop CHUNK_SIZE content

/-- The chunked read path accumulates exactly the file's bytes. -/
theorem chunkedReadBytes_eq_content (content : Bytes) : chunkedReadBytes content = content := by
  rw [chunkedReadBytes, foldl_hashUpdate_eq]
  simp [readChunks_flatten_le content.length content le_rfl]

/-- The whole-file read path accumulates exactly the file's bytes. -/
theorem wholeReadBytes_eq_content (content : Bytes) : wholeReadBytes content = content := by
  simp [wholeReadBytes, hashUpdate]

/-- Inserting an element leaves it a member. -/
theorem mem_setInsert_self (x : String × Bool) (l : List (String × Bool)) :
    x ∈ setInsert x l := by
  unfold setInsert
  by_cases h : x ∈ l <;> simp [h]

/-- Inserting the same element twice equals inserting it once. -/
theorem setInsert_idem (x : String × Bool) (l : List (String × Bool)) :
    setInsert x (setInsert x l) = setInsert x l := by
  unfold setInsert
  by_cases h : x ∈ l <;> simp [h]

/-- What one run of the continuous callback does: a vanished or non-regular
path performs no counter update; every other path performs exactly one
`errors` increment under the lock (the format-validation call raises
`AttributeError`, which `_process_image_file` catches as failure), and the
store is left unchanged. -/
theorem processFile_run (store : Store) (f : PyFile) :
    processFile store f =
      ((if f.present && f.isFile then [⟨.errors, true⟩] else []), store) := by
  cases hp : f.present with
  | false => simp [processFile, hp]
  | true =>
    cases hf : f.isFile with
    | false => simp [processFile, hp, hf]
    | true =>
      simp [processFile, hp, hf, processImageFile, validateFileFormat,
        isSupportedFormatCall, strLowerCall, processFileTailEv]

/-- The quick validation accepts exactly the readable files whose header
carries a known magic or which pass the PIL probe. -/
theorem quickImageValidation_eq (f : PyFile) :
    quickImageValidation f = (f.readOk && (headerMagic f.header || f.pilOk)) := by
  unfold quickImageValidation headerMagic
  cases hr : f.readOk <;>
    cases h1 : isJpegHeader f.header <;>
      cases h2 : isPngHeader f.header <;>
        cases h3 : isGifHeader f.header <;>
          cases h4 : isBmpHeader f.header <;>
            cases h5 : isWebpHeader f.header <;>
              cases h6 : isTiffHeader f.header <;> simp

/-- Invariant of the `while output_path.exists()` loop: a returned name is
free, and it is either the first candidate or the first free numbered name,
every earlier candidate having been occupied. -/
theorem findUniqueName_spec (occupied : String → Bool) (stem suffix : String) :
    ∀ fuel counter cand dest,
      findUniqueName occupied stem suffix cand counter fuel = some dest →
      occupied dest = false ∧
      (dest = cand ∨
        ∃ k, counter ≤ k ∧ dest = numberedName stem k suffix ∧ occupied cand = true ∧
          ∀ j, counter ≤ j → j < k → occupied (numberedName stem j suffix) = true) := by
  intro fuel
  induction fuel with
  | zero =>
    intro counter cand dest h
    simp [findUniqueName] at h
  | succ m ih =>
    intro counter cand dest h
    rw [findUniqueName] at h
    cases hc : occupied cand with
    | false =>
      rw [hc] at h
      simp only [if_neg Bool.false_ne_true] at h
      cases h
      exact ⟨hc, Or.inl rfl⟩
    | true =>
      rw [hc] at h
      simp only [if_pos rfl] at h
      obtain ⟨hfree, hcase⟩ := ih (counter + 1) (numberedName stem counter suffix) dest h
      refine ⟨hfree, Or.inr ?_⟩
      rcases hcase with heq | ⟨k, hk, hdk, hocc0, hall⟩
      · exact ⟨counter, le_refl _, heq, rfl,
          fun j h1 h2 => absurd h2 (Nat.not_lt.mpr h1)⟩
      · refine ⟨k, by omega, hdk, rfl, ?_⟩
        intro j h1 h2
        rcases Nat.lt_or_ge j (counter + 1) with hj | hj
        · have hje : j = counter := by omega
          subst hje
          exact hocc0
        · exact hall j hj h2

/-! ## The claims -/

/-- Claim C1 (amended): a file whose record insert fails with the
uniqueness-constraint `IntegrityError` is classified as an error, not as a
duplicate — in batch mode the insert block increments `errors` and leaves
`duplicates` untouched, and in continuous mode `_save_file_to_database`
returns `False`, so the callback's closing update increments `errors`. -/
theorem integrity_violation_counted_as_error (store : Store) (stats : BatchStats) (f : PyFile)
    (h : add_file_record store f.hash f.name = .error .integrityError) :
    batchInsertBlock store stats f = ({ stats with errors := stats.errors + 1 }, store) ∧
    saveFileToDatabase store f = (false, store) ∧
    processFileTailEv false = [⟨.errors, true⟩] := by
  refine ⟨?_, ?_, rfl⟩
  · simp [batchInsertBlock, h]
  · simp [saveFileToDatabase, h]

/-- Claim C1, witness: with `h1` already in the store at insert time (the
lost race of the spec), inserting the copy raises `IntegrityError` and both
pipelines count an error. -/
theorem integrity_violation_counted_as_error_witness :
    batchInsertBlock storeH zeroBatchStats imgD =
      ({ zeroBatchStats with errors := zeroBatchStats.errors + 1 }, storeH) ∧
    saveFileToDatabase storeH imgD = (false, storeH) ∧
    processFileTailEv false = [⟨.errors, true⟩] :=
  integrity_violation_counted_as_error storeH zeroBatchStats imgD rfl

/-- Claim C1, counterexample to the claim as stated: at this concrete input
the insert does fail with the integrity violation, yet the duplicates counter
stays 0 and the errors counter becomes 1, in batch mode and (via the `False`
return of `_save_file_to_database`) in continuous mode alike. -/
theorem integrity_duplicate_claim_counterexample :
    add_file_record storeH imgD.hash imgD.name = .error .integrityError ∧
    (batchInsertBlock storeH zeroBatchStats imgD).1.duplicates = 0 ∧
    (batchInsertBlock storeH zeroBatchStats imgD).1.errors = 1 ∧
    (saveFileToDatabase storeH imgD).1 = false ∧
    evCount (processFileTailEv (saveFileToDatabase storeH imgD).1) .duplicates = 0 ∧
    evCount (processFileTailEv (saveFileToDatabase storeH imgD).1) .errors = 1 :=
  ⟨rfl, rfl, rfl, rfl, rfl, rfl⟩

/-- Claim C2 (amended): every counter update of the continuous callback
happens under the shared lock; a file that vanished or is not a regular file
updates no counter at all, any other file updates exactly the `errors`
counter (the format-validation call raises); and the duplicate-removal
handler together with the callback's closing update increments both
`duplicates` and `processed` on a successfully removed duplicate — not only
`duplicates`. -/
theorem callback_counter_update (store : Store) (f : PyFile) (ok : Bool) :
    (∀ e ∈ (processFile store f).1, e.locked = true) ∧
    ((processFile store f).1 = if f.present && f.isFile then [⟨.errors, true⟩] else []) ∧
    ((handleDuplicateFileEv ok).2 ++ processFileTailEv (handleDuplicateFileEv ok).1 =
      if ok then [⟨.duplicates, true⟩, ⟨.processed, true⟩] else [⟨.errors, true⟩]) := by
  have hrun := processFile_run store f
  refine ⟨?_, ?_, ?_⟩
  · intro e he
    rw [hrun] at he
    cases hc : (f.present && f.isFile) <;> simp [hc] at he
    simp [he]
  · rw [hrun]
  · cases ok <;> simp [handleDuplicateFileEv, processFileTailEv]

/-- Claim C2, counterexample to the claim as stated: a vanished file reaches
its terminal outcome with no counter incremented at all, and a successfully
removed duplicate increments two counters — `duplicates` in the handler and
`processed` in the callback's success branch. -/
theorem terminal_counter_claim_counterexample :
    (processFile [] goneFile).1 = [] ∧
    evCount ((handleDuplicateFileEv true).2 ++
      processFileTailEv (handleDuplicateFileEv true).1) .duplicates = 1 ∧
    evCount ((handleDuplicateFileEv true).2 ++
      processFileTailEv (handleDuplicateFileEv true).1) .processed = 1 :=
  ⟨rfl, rfl, rfl⟩

/-- Claim C3, the code evaluated at the failing input: batch mode over a
folder holding three distinct valid images and one byte-identical copy, with
an empty record store, returns processed 0, duplicates 0, skipped 0 and
errors 4 — every discovered file is counted as an error because
`batch_process_folder` hands the `Path` object to `is_supported_format`,
whose `file_extension.lower()` call raises `AttributeError` — instead of the
specified processed 3, duplicates 1, skipped 0, errors 0. -/
theorem batch_scenario_a_runs_all_errors :
    batch_process_folder fsIn [] "/in" true =
      ({ processed := 0, duplicates := 0, errors := 4, skipped := 0 }, [], fsIn) := by
  decide

/-- Claim C4 (amended): registration is keyed by the pair of the parsed path
spelling (`str(Path(path))`, which collapses slashes and single dots but does
not absolutize) and the recursive flag; repeating the very same call is a
no-op. -/
theorem registration_idempotent_same_call (fs : Fs) (st : ScannerState) (p : String) (r : Bool) :
    add_scan_path fs (add_scan_path fs st p r).2 p r = add_scan_path fs st p r := by
  unfold add_scan_path
  cases h1 : fsPathExists fs p with
  | false => simp
  | true =>
    cases h2 : fsIsDir fs p with
    | false => simp [h1]
    | true => simp [h1, setInsert_idem]

/-- Claim C4, counterexample to the claim as stated: `d` and `/root/d` spell
the same existing directory (their normalized absolute paths agree), both
registrations succeed, yet re-registering it with the other recursive flag or
with the absolute spelling changes the target set. -/
theorem registration_idempotence_counterexample :
    ((add_scan_path fs4 (add_scan_path fs4 noTargets "d" true).2 "d" false).2.scanPaths ≠
      (add_scan_path fs4 noTargets "d" true).2.scanPaths) ∧
    ((add_scan_path fs4 (add_scan_path fs4 noTargets "d" true).2 "/root/d" true).2.scanPaths ≠
      (add_scan_path fs4 noTargets "d" true).2.scanPaths) ∧
    absNorm fs4.cwd "d" = absNorm fs4.cwd "/root/d" ∧
    (add_scan_path fs4 noTargets "d" true).1 = true ∧
    (add_scan_path fs4 (add_scan_path fs4 noTargets "d" true).2 "/root/d" true).1 = true := by
  decide

/-- Claim C5: when the relocation loop returns a destination, that name is
free — no existing file is overwritten — and it is the source's own name or
the first free numbered name stem_k.ext, every earlier candidate (the plain
name and the numbers below k) having been occupied. -/
theorem unique_move_destination (occupied : String → Bool) (f : PyFile) (fuel : Nat)
    (dest : String) (h : moveDestName occupied f fuel = some dest) :
    occupied dest = false ∧
    (dest = f.name ∨
      ∃ k, 1 ≤ k ∧ dest = numberedName f.stem k f.ext ∧ occupied f.name = true ∧
        ∀ j, 1 ≤ j → j < k → occupied (numberedName f.stem j f.ext) = true) :=
  findUniqueName_spec occupied f.stem f.ext fuel 1 f.name dest h

/-- Claim C5, witness: with `a.png` and `a_1.png` taken, relocating `a.png`
settles on the free name `a_2.png`. -/
theorem unique_move_destination_witness :
    occA "a_2.png" = false ∧
    ("a_2.png" = fileA.name ∨
      ∃ k, 1 ≤ k ∧ "a_2.png" = numberedName fileA.stem k fileA.ext ∧
        occA fileA.name = true ∧
        ∀ j, 1 ≤ j → j < k → occA (numberedName fileA.stem j fileA.ext) = true) :=
  unique_move_destination occA fileA 5 "a_2.png" rfl

/-- Claim C6: for every byte content and digest function, the chunked read
path and the whole-file read path produce the same digest, and
`calculate_file_hash` returns exactly that digest of the content. -/
theorem hash_deterministic_across_read_paths (H : Bytes → String) (content : Bytes) :
    chunkedReadDigest H content = wholeReadDigest H content ∧
    calculate_file_hash H content = H content := by
  have h1 := chunkedReadBytes_eq_content content
  have h2 := wholeReadBytes_eq_content content
  constructor
  · rw [chunkedReadDigest, wholeReadDigest, h1, h2]
  · rw [calculate_file_hash]
    split
    · rw [wholeReadDigest, h2]
    · rw [chunkedReadDigest, h1]

/-- Claim C7: target registration returns false — raising nothing, the
embedding being a total function — when the path does not exist or is not a
directory, and otherwise returns true and puts the target into the set. -/
theorem register_target_validation (fs : Fs) (st : ScannerState) (p : String) (r : Bool) :
    (fsPathExists fs p = false → add_scan_path fs st p r = (false, st)) ∧
    (fsIsDir fs p = false → add_scan_path fs st p r = (false, st)) ∧
    (fsPathExists fs p = true → fsIsDir fs p = true →
      (add_scan_path fs st p r).1 = true ∧
      (pathStr p, r) ∈ (add_scan_path fs st p r).2.scanPaths) := by
  refine ⟨?_, ?_, ?_⟩
  · intro h
    simp [add_scan_path, h]
  · intro h
    cases h1 : fsPathExists fs p <;> simp [add_scan_path, h, h1]
  · intro h1 h2
    simp [add_scan_path, h1, h2, mem_setInsert_self]

/-- Claim C8: a scan pass leaves the registered target set unchanged — the
worker never writes `scan_paths` — and a target whose directory no longer
exists contributes nothing to the queue for that pass (it is logged and
skipped, not removed); the pass's whole queue contribution is the
concatenation over the registered targets. -/
theorem scan_pass_keeps_targets_and_skips_missing (fs : Fs) (st : ScannerState) :
    (scanPass fs st).1 = st ∧
    (∀ target ∈ st.scanPaths, fsPathExists fs target.1 = false → targetFiles fs target = []) ∧
    (scanPass fs st).2 = st.scanPaths.flatMap (targetFiles fs) := by
  refine ⟨rfl, ?_, rfl⟩
  intro target _ h
  simp [targetFiles, h]

/-- Claim C9: `validate_image` is total over the embedding and returns false
on every listed bad input — a path that does not exist, is not a regular
file, is empty, has an unsupported extension, cannot be read, or whose
content matches no known header and fails the PIL probe — and, the whole body
being guarded by the catch-all handler, never propagates an exception. -/
theorem validate_image_false_on_invalid (f : PyFile)
    (h : f.present = false ∨ f.isFile = false ∨ f.size = 0 ∨
      is_supported_format f.ext = false ∨ f.readOk = false ∨
      (headerMagic f.header = false ∧ f.pilOk = false)) :
    validate_image f = false := by
  rcases h with h | h | h | h | h | ⟨h1, h2⟩
  · simp [validate_image, h]
  · simp [validate_image, h]
  · simp [validate_image, h]
  · simp [validate_image, h]
  · have hq : quickImageValidation f = false := by
      rw [quickImageValidation_eq, h]
      rfl
    simp [validate_image, hq]
  · have hq : quickImageValidation f = false := by
      rw [quickImageValidation_eq, h1, h2]
      simp
    simp [validate_image, hq]

/-- Claim C9, witness: the vanished file is rejected. -/
theorem validate_image_false_on_invalid_witness : validate_image goneFile = false :=
  validate_image_false_on_invalid goneFile (Or.inl rfl)

/-- Claim C10: batch mode over a path that does not exist or is not a
directory returns the all-zero counts, leaving the record store and the
filesystem untouched (the embedding returns them unchanged and, being a total
function, raises nothing). -/
theorem batch_missing_folder_returns_zero (fs : Fs) (store : Store) (p : String) (r : Bool)
    (h : fsPathExists fs p = false ∨ fsIsDir fs p = false) :
    batch_process_folder fs store p r = (zeroBatchStats, store, fs) := by
  rcases h with h | h <;> simp [batch_process_folder, h]

/-- Claim C10, witness: a nonexistent folder on an empty filesystem. -/
theorem batch_missing_folder_returns_zero_witness :
    batch_process_folder fs0 [] "/nope" true = (zeroBatchStats, [], fs0) :=
  batch_missing_folder_returns_zero fs0 [] "/nope" true (Or.inl rfl)

end ImgDedup
